import Mathlib

/-!
Verification of the trade-normalization and FIFO tax pipeline of the
`ethereum_tx_tracking` repository.

The development shallowly embeds the Python sources:
* `calculate_fifo_taxes.py` (Lot, FIFOTaxCalculator: `add_lot`,
  `match_sell_fifo`, `process_trades`, the sort of `export_tax_csv`);
* `calculate_prices.py` (PriceFeedBuilder: stablecoin tables,
  `calculate_price_from_trade`, `find_price_in_feed`, `get_coingecko_price`,
  `extract_underlying_asset`, `calculate_prices_for_trade`);
* `coingecko.py` (`get_cache_key`);
* `parse_ethereum_trades.py` / `ethereum_config.py` (the generic swap
  classifier and its helper parsers, router and signature tables).

Conventions: Python `Decimal` values are embedded as `ℚ` (exact arithmetic,
as the source intends); Python `float` values are also embedded as `ℚ`
(exact on all inputs appearing in the concrete theorems below); Python
`dict`s are embedded as insertion-ordered association lists; a fallible
computation is an `Option`; an exception that the source does not catch is
an explicit error value.
-/

/-- A calendar datetime as produced by `datetime.strptime` with the fixed
format `%Y/%m/%d %H:%M:%S` used by `FIFOTaxCalculator.process_trades`. -/
structure PyDateTime where
  year : Nat
  month : Nat
  day : Nat
  hour : Nat
  minute : Nat
  second : Nat
deriving DecidableEq, Repr

/-- Chronological (lexicographic) order on parsed datetimes. -/
def dtBefore (a b : PyDateTime) : Prop :=
  a.year < b.year ∨ (a.year = b.year ∧
    (a.month < b.month ∨ (a.month = b.month ∧
      (a.day < b.day ∨ (a.day = b.day ∧
        (a.hour < b.hour ∨ (a.hour = b.hour ∧
          (a.minute < b.minute ∨ (a.minute = b.minute ∧
            a.second < b.second)))))))))

instance (a b : PyDateTime) : Decidable (dtBefore a b) := by
  unfold dtBefore; infer_instance

/-- `Lot` of `calculate_fifo_taxes.py` (lines 14-22).  `cost_per_token` is
computed once at construction (`cost_basis_usd / amount` when the amount is
positive) and is not recomputed when the lot is partially consumed. -/
structure Lot where
  trade_id : Nat
  amount : ℚ
  cost_basis_usd : ℚ
  acquisition_date : PyDateTime
  token_symbol : String
  cost_per_token : ℚ
deriving DecidableEq, Repr

/-- The `Lot.__init__` constructor. -/
def mkLot (trade_id : Nat) (amount cost_basis_usd : ℚ) (acquisition_date : PyDateTime)
    (token_symbol : String) : Lot :=
  { trade_id := trade_id, amount := amount, cost_basis_usd := cost_basis_usd,
    acquisition_date := acquisition_date, token_symbol := token_symbol,
    cost_per_token := if 0 < amount then cost_basis_usd / amount else 0 }

/-- `FIFOTaxCalculator.inventory`: a `defaultdict(list)` mapping a token
symbol to its FIFO-ordered lot list, embedded as an insertion-ordered
association list.  A missing key behaves as the empty list. -/
abbrev Inventory := List (String × List Lot)

/-- Reading `inventory[token]` (first matching key; `[]` for a missing key,
matching the `defaultdict` / `not in` handling of the source). -/
def lookupInv : Inventory → String → List Lot
  | [], _ => []
  | (k, v) :: rest, t => if k = t then v else lookupInv rest t

/-- Writing `inventory[token] = lots` (replace the first matching key,
otherwise append — Python dicts keep insertion order). -/
def setInv : Inventory → String → List Lot → Inventory
  | [], t, v => [(t, v)]
  | (k, w) :: rest, t, v => if k = t then (k, v) :: rest else (k, w) :: setInv rest t v

/-- Result of the FIFO matching loop.  `cost` and `ids` are the values the
source accumulates, `lots` is the mutated queue, `rem` the final
`amount_remaining`, and `consumed` the total amount removed from lots (the
quantity the spec calls the amount matched). -/
structure MatchRes where
  cost : ℚ
  ids : List Nat
  lots : List Lot
  rem : ℚ
  consumed : ℚ
deriving Repr

/-- The `while amount_remaining > 0 and lots` loop of
`FIFOTaxCalculator.match_sell_fifo` (lines 57-76): consume the head lot
entirely when `lot.amount <= remaining`, otherwise consume a pro-rata
fraction, shrink the lot in place and stop. -/
def matchLoop : List Lot → ℚ → MatchRes
  | [], rem => ⟨0, [], [], rem, 0⟩
  | lot :: rest, rem =>
    if 0 < rem then
      if lot.amount ≤ rem then
        let r := matchLoop rest (rem - lot.amount)
        ⟨lot.cost_basis_usd + r.cost, lot.trade_id :: r.ids, r.lots, r.rem,
          lot.amount + r.consumed⟩
      else
        let fraction := rem / lot.amount
        let costFromLot := lot.cost_basis_usd * fraction
        ⟨costFromLot, [lot.trade_id],
          { lot with amount := lot.amount - rem,
                     cost_basis_usd := lot.cost_basis_usd - costFromLot } :: rest,
          0, rem⟩
    else ⟨0, [], lot :: rest, rem, 0⟩

/-- `FIFOTaxCalculator.match_sell_fifo` (lines 40-84).  Returns the pair the
source returns (total cost basis, matched trade ids) together with the
updated inventory (the source mutates `self.inventory` in place).  With an
empty queue for the token it returns `amount_to_sell * sale_price_per_token`
and no ids; after the loop, a still-uncovered remainder contributes
`remaining * sale_price_per_token` to the cost basis. -/
def match_sell_fifo (inv : Inventory) (token_symbol : String)
    (amount_to_sell sale_price_per_token : ℚ) : ℚ × List Nat × Inventory :=
  if (lookupInv inv token_symbol).isEmpty then
    (amount_to_sell * sale_price_per_token, [], inv)
  else
    let r := matchLoop (lookupInv inv token_symbol) amount_to_sell
    let total_cost_basis :=
      r.cost + (if 0 < r.rem then r.rem * sale_price_per_token else 0)
    (total_cost_basis, r.ids, setInv inv token_symbol r.lots)

/-- `FIFOTaxCalculator.add_lot` (lines 35-38): append a freshly constructed
lot to the tail of the token's queue. -/
def add_lot (inv : Inventory) (token_symbol : String) (amount cost_basis_usd : ℚ)
    (trade_id : Nat) (acquisition_date : PyDateTime) : Inventory :=
  setInv inv token_symbol
    (lookupInv inv token_symbol ++ [mkLot trade_id amount cost_basis_usd acquisition_date token_symbol])

/-- One call against a `FIFOTaxCalculator`: either `add_lot` or
`match_sell_fifo`, with the arguments the source passes. -/
inductive FifoOp where
  | add (token : String) (amount cost : ℚ) (trade_id : Nat) (date : PyDateTime)
  | sell (token : String) (amount price : ℚ)

/-- Accounting state for a call sequence: the live inventory together with
the running totals the FIFO invariant speaks about (`added` = total amount
given to `add_lot`, `matched` = total amount consumed from lots by
`match_sell_fifo` calls). -/
structure CalcAcc where
  inv : Inventory
  added : ℚ
  matched : ℚ

/-- Apply one call.  For a sell, the new inventory is exactly the one
`match_sell_fifo` produces; the amount consumed from lots is `matchLoop`'s
`consumed` (zero on the empty-queue early return, which touches no lot). -/
def applyFifoOp (s : CalcAcc) : FifoOp → CalcAcc
  | .add t a c tid d => ⟨add_lot s.inv t a c tid d, s.added + a, s.matched⟩
  | .sell t amt price =>
    let res := match_sell_fifo s.inv t amt price
    let consumed :=
      if (lookupInv s.inv t).isEmpty then 0
      else (matchLoop (lookupInv s.inv t) amt).consumed
    ⟨res.2.2, s.added, s.matched + consumed⟩

/-- Run a call sequence from a fresh calculator. -/
def runFifoOps (ops : List FifoOp) : CalcAcc :=
  ops.foldl applyFifoOp ⟨[], 0, 0⟩

/-- The amounts still held by a list of lots. -/
def sumAmount (lots : List Lot) : ℚ := (lots.map Lot.amount).sum

/-- The cost bases held by a list of lots. -/
def sumCost (lots : List Lot) : ℚ := (lots.map Lot.cost_basis_usd).sum

/-- Total remaining amount over the whole inventory. -/
def sumInv (inv : Inventory) : ℚ := (inv.map (fun e => sumAmount e.2)).sum

/-- The conservation invariant of spec §8. -/
def fifoInvariant (s : CalcAcc) : Prop := sumInv s.inv + s.matched = s.added

/-- Hypothesis of claim C1: every `add_lot` amount in the sequence is
positive. -/
def addAmountsPositive : FifoOp → Bool
  | .add _ a _ _ _ => decide (0 < a)
  | .sell _ _ _ => true

/-- Whitespace as matched by Python (`str.strip` in the `Decimal`
constructor, `\s` in the compiled strptime pattern); ASCII subset. -/
def pySpace (c : Char) : Bool :=
  c = ' ' || c = '\t' || c = '\n' || c = '\r' || c = '\x0b' || c = '\x0c'

/-- Optional leading sign of a numeric literal; returns the sign and the
remaining characters. -/
def parseSign : List Char → ℤ × List Char
  | '-' :: rest => (-1, rest)
  | '+' :: rest => (1, rest)
  | cs => (1, cs)

/-- Value of a list of ASCII digits. -/
def digitsVal (cs : List Char) : ℕ :=
  cs.foldl (fun n c => 10 * n + (c.toNat - 48)) 0

/-- Assemble `sign * int.frac * 10^(esign*exp)` as an exact rational. -/
def ratOfParts (sign : ℤ) (ip fp : List Char) (esign : ℤ) (ed : List Char) : ℚ :=
  let m : ℚ := ((sign * (digitsVal (ip ++ fp) : ℤ) : ℤ) : ℚ) / (10 : ℚ) ^ fp.length
  if esign < 0 then m / (10 : ℚ) ^ digitsVal ed else m * (10 : ℚ) ^ digitsVal ed

/-- Exponent tail of a decimal literal (`e`/`E` already consumed): an
optional sign followed by at least one digit, ending the string. -/
def decimalExpTail (sign : ℤ) (ip fp : List Char) (cs : List Char) : Option ℚ :=
  let es := parseSign cs
  let dr := es.2.span Char.isDigit
  if dr.1.isEmpty || !dr.2.isEmpty then none
  else some (ratOfParts sign ip fp es.1 dr.1)

/-- Model of the `Decimal(str)` constructor used by `process_trades`
(`decimal` grammar: optional surrounding whitespace, optional sign,
digits with an optional fractional part — at least one digit overall —
and an optional signed exponent).  `none` models the constructor raising
`decimal.InvalidOperation`.  PEP-515 underscore separators and the
non-finite special values (`NaN`, `Infinity`), which no claim exercises,
are also mapped to `none`. -/
def decimalParse (s : String) : Option ℚ :=
  let cs0 := ((s.data.dropWhile pySpace).reverse.dropWhile pySpace).reverse
  let sp := parseSign cs0
  let ipr := sp.2.span Char.isDigit
  let fpr : List Char × List Char :=
    match ipr.2 with
    | '.' :: rest => rest.span Char.isDigit
    | other => ([], other)
  if ipr.1.length + fpr.1.length = 0 then none
  else
    match fpr.2 with
    | [] => some (ratOfParts sp.1 ipr.1 fpr.1 1 [])
    | 'e' :: rest => decimalExpTail sp.1 ipr.1 fpr.1 rest
    | 'E' :: rest => decimalExpTail sp.1 ipr.1 fpr.1 rest
    | _ => none

/-- Exactly four ASCII digits (the `%Y` pattern). -/
def parse4Digits : List Char → Option (ℕ × List Char)
  | a :: b :: c :: d :: rest =>
    if a.isDigit && b.isDigit && c.isDigit && d.isDigit then
      some (digitsVal [a, b, c, d], rest)
    else none
  | _ => none

/-- One or two ASCII digits subject to a range check, preferring the
two-digit reading — the behaviour of the `%m`/`%d`/`%H`/`%M`/`%S`
alternation regexes of CPython `_strptime` for this delimiter-separated
format (zero padding optional). -/
def parse2or1 (valid : ℕ → Bool) (cs : List Char) : Option (ℕ × List Char) :=
  match cs with
  | a :: b :: rest =>
    if a.isDigit then
      if b.isDigit then
        if valid (digitsVal [a, b]) then some (digitsVal [a, b], rest)
        else if valid (digitsVal [a]) then some (digitsVal [a], b :: rest)
        else none
      else
        if valid (digitsVal [a]) then some (digitsVal [a], b :: rest) else none
    else none
  | [a] => if a.isDigit && valid (digitsVal [a]) then some (digitsVal [a], []) else none
  | [] => none

/-- Expect one literal character. -/
def expectChar (c : Char) : List Char → Option (List Char)
  | x :: rest => if x = c then some rest else none
  | [] => none

/-- One or more whitespace characters (format whitespace is compiled to
`\s+` by `_strptime`). -/
def skipSpaces1 : List Char → Option (List Char)
  | x :: rest => if pySpace x then some (rest.dropWhile pySpace) else none
  | [] => none

/-- Gregorian leap year. -/
def isLeapYear (y : ℕ) : Bool := (y % 4 = 0 && y % 100 ≠ 0) || y % 400 = 0

/-- Days in a month. -/
def daysInMonth (y m : ℕ) : ℕ :=
  if m = 2 then (if isLeapYear y then 29 else 28)
  else if m = 4 ∨ m = 6 ∨ m = 9 ∨ m = 11 then 30
  else 31

/-- Model of `datetime.strptime(s, '%Y/%m/%d %H:%M:%S')` as called by
`process_trades` (line 118): the compiled field regexes accept unpadded
1-2 digit month/day/hour/minute/second and a 4-digit year; the subsequent
`datetime` construction rejects year 0, days beyond the month length and
leap seconds.  `none` models `ValueError`, which the source catches —
such a row is skipped. -/
def strptimeYmdHMS (s : String) : Option PyDateTime := do
  let (y, cs) ← parse4Digits s.data
  let cs ← expectChar '/' cs
  let (m, cs) ← parse2or1 (fun v => 1 ≤ v && v ≤ 12) cs
  let cs ← expectChar '/' cs
  let (d, cs) ← parse2or1 (fun v => 1 ≤ v && v ≤ 31) cs
  let cs ← skipSpaces1 cs
  let (hh, cs) ← parse2or1 (fun v => v ≤ 23) cs
  let cs ← expectChar ':' cs
  let (mi, cs) ← parse2or1 (fun v => v ≤ 59) cs
  let cs ← expectChar ':' cs
  let (ss, cs) ← parse2or1 (fun v => v ≤ 61) cs
  if cs.isEmpty && 1 ≤ y && d ≤ daysInMonth y m && ss ≤ 59 then
    some ⟨y, m, d, hh, mi, ss⟩
  else none

/-- One row of the tab-separated trades file, with the columns
`process_trades` reads.  Field values are the raw strings of the file. -/
structure TradeRow where
  date_time : String
  source_currency : String
  source_amount : String
  target_currency : String
  target_amount : String
  platform : String
  address : String
deriving DecidableEq, Repr

/-- An entry of `FIFOTaxCalculator.all_trades`. -/
structure TradeInfo where
  trade_id : Nat
  typ : String
  token : String
  amount : ℚ
  usd_value : ℚ
  date : PyDateTime
deriving DecidableEq, Repr

/-- A tax record as assembled in `process_trades` (lines 143-154).  The
numeric fields hold the exact values of the source's
`quantize(..., ROUND_DOWN)` calls; rendering those decimals as strings is
elided.  `buy_tx_ids` keeps the id list that the source joins with commas. -/
structure TaxRecord where
  trade_id : Nat
  date_time : String
  token_sold : String
  amount_sold : ℚ
  sale_proceeds_usd : ℚ
  cost_basis_usd : ℚ
  profit_usd : ℚ
  buy_tx_ids : List Nat
  platform : String
  address : String
deriving DecidableEq, Repr

/-- Truncation toward zero (`decimal.ROUND_DOWN`). -/
def intTowardZero (q : ℚ) : ℤ := Int.tdiv q.num (q.den : ℤ)

/-- `q.quantize(Decimal(10^-s), rounding=ROUND_DOWN)`. -/
def truncScale (q : ℚ) (s : ℕ) : ℚ := (intTowardZero (q * (10 : ℚ) ^ s) : ℚ) / (10 : ℚ) ^ s

/-- Exceptions that `process_trades` does NOT catch: `Decimal` of a
malformed numeric string raises `decimal.InvalidOperation` (the `except`
clause at line 112 names only `ValueError` and `TypeError`), and dividing
a positive `Decimal` by zero raises `decimal.DivisionByZero`. -/
inductive PyErr where
  | invalidOperation
  | divisionByZero
deriving DecidableEq, Repr

/-- Mutable state of a `FIFOTaxCalculator` during `process_trades`. -/
structure PState where
  inventory : Inventory
  all_trades : List TradeInfo
  next_trade_id : Nat
deriving DecidableEq, Repr

/-- A fresh `FIFOTaxCalculator`. -/
def initialPState : PState := ⟨[], [], 1⟩

/-- One iteration of the row loop of `process_trades` (lines 93-184):
N/A rows are skipped; a malformed amount raises the uncaught
`InvalidOperation`; an unparseable date is skipped with a warning; a row
with `target_currency == 'USD'` is a SELL (with `proceeds/amount` raising
`DivisionByZero` when the sold amount is zero but proceeds are positive);
a row with `source_currency == 'USD'` is a BUY adding a lot; any other row
falls through both branches.  Returns (state, emitted record, raised
uncaught exception). -/
def processRow (st : PState) (row : TradeRow) : PState × Option TaxRecord × Option PyErr :=
  let trade_id := st.next_trade_id
  let st1 : PState := { st with next_trade_id := st.next_trade_id + 1 }
  if row.target_amount = "N/A" ∨ row.source_amount = "N/A" then (st1, none, none)
  else
    match decimalParse row.source_amount, decimalParse row.target_amount with
    | none, _ => (st1, none, some .invalidOperation)
    | some _, none => (st1, none, some .invalidOperation)
    | some source_amount, some target_amount =>
      match strptimeYmdHMS row.date_time with
      | none => (st1, none, none)
      | some trade_date =>
        if row.target_currency = "USD" then
          let sale_proceeds := target_amount
          let token_sold := row.source_currency
          let amount_sold := source_amount
          if 0 < sale_proceeds ∧ amount_sold = 0 then (st1, none, some .divisionByZero)
          else
            let sale_price_per_token :=
              if 0 < sale_proceeds then sale_proceeds / amount_sold else 0
            let res := match_sell_fifo st1.inventory token_sold amount_sold sale_price_per_token
            let profit := sale_proceeds - res.1
            let record : TaxRecord :=
              { trade_id := trade_id, date_time := row.date_time, token_sold := token_sold,
                amount_sold := truncScale amount_sold 8,
                sale_proceeds_usd := truncScale sale_proceeds 2,
                cost_basis_usd := truncScale res.1 2,
                profit_usd := truncScale profit 2,
                buy_tx_ids := res.2.1, platform := row.platform, address := row.address }
            let info : TradeInfo :=
              ⟨trade_id, "SELL", token_sold, amount_sold, sale_proceeds, trade_date⟩
            ({ st1 with inventory := res.2.2, all_trades := st1.all_trades ++ [info] },
              some record, none)
        else if row.source_currency = "USD" then
          let info : TradeInfo :=
            ⟨trade_id, "BUY", row.target_currency, target_amount, source_amount, trade_date⟩
          ({ st1 with
              inventory := add_lot st1.inventory row.target_currency target_amount
                source_amount trade_id trade_date,
              all_trades := st1.all_trades ++ [info] }, none, none)
        else (st1, none, none)

/-- The row loop of `process_trades`: accumulate tax records; an uncaught
exception aborts the batch (remaining rows are never processed). -/
def processTrades : PState → List TradeRow → PState × List TaxRecord × Option PyErr
  | st, [] => (st, [], none)
  | st, row :: rest =>
    match processRow st row with
    | (st', rec, none) =>
      let r := processTrades st' rest
      (r.1, (match rec with | some x => x :: r.2.1 | none => r.2.1), r.2.2)
    | (st', _, some e) => (st', [], some e)

/-- Python string comparison: lexicographic on code points. -/
def charsLe : List Char → List Char → Bool
  | [], _ => true
  | _ :: _, [] => false
  | a :: as, b :: bs =>
    if a.toNat < b.toNat then true
    else if a.toNat = b.toNat then charsLe as bs
    else false

/-- `a <= b` on Python strings. -/
def pyStrLe (a b : String) : Bool := charsLe a.data b.data

/-- The sort of `export_tax_csv` (line 205):
`sorted(tax_records, key=lambda x: x['date_time'], reverse=True)` — a
stable sort on the raw `date_time` STRING, descending.  Embedded as a
stable merge sort whose order places `x` before `y` when
`y.date_time <= x.date_time`. -/
def exportSortRecords (records : List TaxRecord) : List TaxRecord :=
  records.mergeSort (fun x y => pyStrLe y.date_time x.date_time)

/-- Python `str.lower()` (ASCII; all symbols and addresses in scope are
ASCII). -/
def lowerStr (s : String) : String := ⟨s.data.map Char.toLower⟩

/-- Python `str.upper()` (ASCII). -/
def upperStr (s : String) : String := ⟨s.data.map Char.toUpper⟩

/-- `p.startswith(q)`. -/
def pyStartsWith (s p : String) : Bool := p.data.isPrefixOf s.data

/-- `s[n:]` on code points. -/
def dropStr (n : Nat) (s : String) : String := ⟨s.data.drop n⟩

/-- Association-list lookup (first match), modelling Python `dict.get`. -/
def alistFind {β : Type} : List (String × β) → String → Option β
  | [], _ => none
  | (k, v) :: rest, t => if k = t then some v else alistFind rest t

/-- Python dict assignment `m[k] = v`: replace the first matching key,
otherwise append (insertion order preserved). -/
def dictInsert (m : List (String × String)) (k v : String) : List (String × String) :=
  match m with
  | [] => [(k, v)]
  | (k', v') :: rest => if k' = k then (k', v) :: rest else (k', v') :: dictInsert rest k v

/-- `STABLECOINS` of `calculate_prices.py` (line 15). -/
def STABLECOINS : List String :=
  ["USDC", "USDT", "DAI", "BUSD", "USDP", "TUSD", "USDD", "FRAX", "LUSD",
   "USD3", "NUSD", "AUSD", "USN"]

/-- `PROTOCOL_STABLECOINS` of `calculate_prices.py` (lines 18-21); note the
mixed-case entries. -/
def PROTOCOL_STABLECOINS : List String :=
  ["aEthUSDC", "aUSDC", "reUSDC", "fUSDC", "csUSDC", "hyperUSDC", "syrupUSDC",
   "aEthUSDT", "syrupUSDT", "stcUSD", "siUSD", "cUSD", "reUSDe", "iUSD"]

/-- `PriceFeedBuilder.is_stablecoin`: membership of the uppercased symbol. -/
def is_stablecoin (symbol : String) : Bool := STABLECOINS.contains (upperStr symbol)

/-- `PriceFeedBuilder.is_protocol_stablecoin`: membership of the symbol as
given (no case folding). -/
def is_protocol_stablecoin (symbol : String) : Bool := PROTOCOL_STABLECOINS.contains symbol

/-- A trade as consumed by the price builder, with the fields
`calculate_prices.py` reads: the two token metadata symbols/addresses (raw,
the source folds case at use sites), the formatted amounts as exact values,
and the timestamp. -/
structure Trade where
  token_in_symbol : String
  token_out_symbol : String
  token_in_address : String
  token_out_address : String
  amount_in : ℚ
  amount_out : ℚ
  timestamp : ℤ
deriving DecidableEq, Repr

/-- Python truthiness of an optional price: `None` and `0.0` are falsy. -/
def truthy : Option ℚ → Bool
  | none => false
  | some x => if x = 0 then false else true

/-- `PriceFeedBuilder.calculate_price_from_trade` (lines 40-80): assign
`1.00` to a stablecoin leg and derive the counter-leg from the exchange
amounts.  Both symbols are uppercased first (line 48-49), so the
mixed-case `PROTOCOL_STABLECOINS` branches compare an uppercased symbol
against mixed-case entries, exactly as the source does. -/
def calculate_price_from_trade (t : Trade) : Option ℚ × Option ℚ :=
  let source_symbol := upperStr t.token_in_symbol
  let target_symbol := upperStr t.token_out_symbol
  let source_amount := t.amount_in
  let target_amount := t.amount_out
  if source_amount = 0 ∨ target_amount = 0 then (none, none)
  else if is_stablecoin source_symbol then
    (some 1, if 0 < target_amount then some (source_amount / target_amount) else none)
  else if is_stablecoin target_symbol then
    ((if 0 < source_amount then some (target_amount / source_amount) else none), some 1)
  else if is_protocol_stablecoin source_symbol then
    (some 1, if 0 < target_amount then some (source_amount / target_amount) else none)
  else if is_protocol_stablecoin target_symbol then
    ((if 0 < source_amount then some (target_amount / source_amount) else none), some 1)
  else (none, none)

/-- Accumulator of the best-price scan in `find_price_in_feed`:
best/min-diff within the window and overall (`none` plays `float('inf')` /
`None`). -/
structure BestAcc where
  bw : Option ℚ
  mw : Option ℤ
  bo : Option ℚ
  mo : Option ℤ

/-- `d` is below the tracked minimum (`none` = infinity). -/
def ltOpt (d : ℤ) (m : Option ℤ) : Bool :=
  match m with
  | none => true
  | some x => decide (d < x)

/-- The inner loop of `find_price_in_feed` over one `(timestamp, price)`
list: track the closest price within `max_hours` and the closest price
overall (`hours_diff = time_diff / 3600` is exact rational division,
matching the float comparison on these integer inputs). -/
def scanPrices (max_hours : ℚ) (target_timestamp : ℤ) (acc : BestAcc)
    (prices : List (ℤ × ℚ)) : BestAcc :=
  prices.foldl (fun acc pr =>
    let time_diff : ℤ := |pr.1 - target_timestamp|
    let acc1 :=
      if decide ((time_diff : ℚ) / 3600 ≤ max_hours) && ltOpt time_diff acc.mw then
        { acc with mw := some time_diff, bw := some pr.2 }
      else acc
    if ltOpt time_diff acc1.mo then { acc1 with mo := some time_diff, bo := some pr.2 }
    else acc1) acc

/-- The mutable maps of a `PriceFeedBuilder`: `price_feed`
(address → `(timestamp, price)` list) and `symbol_to_addresses`
(uppercased symbol → addresses; the source's set is embedded as a list in
iteration order). -/
structure PriceFeedBuilder where
  price_feed : List (String × List (ℤ × ℚ))
  symbol_to_addresses : List (String × List String)
deriving Repr

/-- `PriceFeedBuilder.find_price_in_feed` (lines 150-218): try the address
key first (returning whichever of best-within-window / best-overall is
truthy), then fall through to every address registered for the uppercased
symbol, else `None`. -/
def find_price_in_feed (b : PriceFeedBuilder) (token_address : Option String)
    (token_symbol : String) (target_timestamp : ℤ) (max_hours : ℚ) : Option ℚ :=
  let addrResult : Option ℚ :=
    match token_address with
    | some addr =>
      if decide (¬ addr = "") then
        match alistFind b.price_feed addr with
        | some prices =>
          if !prices.isEmpty then
            let acc := scanPrices max_hours target_timestamp ⟨none, none, none, none⟩ prices
            if truthy acc.bw then acc.bw
            else if truthy acc.bo then acc.bo
            else none
          else none
        | none => none
      else none
    | none => none
  match addrResult with
  | some p => some p
  | none =>
    if decide (¬ token_symbol = "") then
      match alistFind b.symbol_to_addresses (upperStr token_symbol) with
      | some addrs =>
        let acc := addrs.foldl (fun acc addr =>
          match alistFind b.price_feed addr with
          | some prices => scanPrices max_hours target_timestamp acc prices
          | none => acc) ⟨none, none, none, none⟩
        if truthy acc.bw then acc.bw
        else if truthy acc.bo then acc.bo
        else none
      | none => none
    else none

/-- The `symbol_to_id` table of `PriceFeedBuilder.get_coingecko_price`
(lines 85-99). -/
def symbolToId : List (String × String) :=
  [("ETH", "ethereum"), ("WETH", "ethereum"), ("WBTC", "wrapped-bitcoin"),
   ("BTC", "wrapped-bitcoin"), ("COMP", "compound-governance-token"),
   ("AAVE", "aave"), ("UNI", "uniswap"), ("LINK", "chainlink"),
   ("CRV", "curve-dao-token"), ("SUSHI", "sushi"), ("MKR", "maker"),
   ("SNX", "synthetix-network-token"), ("YFI", "yearn-finance")]

/-- `PriceFeedBuilder.get_coingecko_price` (lines 82-121), instrumented:
the HTTP request (and every failure mode the source swallows) is the
injected `oracle`; the second component counts external calls — zero when
the symbol has no CoinGecko id (the source returns `None` before any
request). -/
def get_coingecko_price (oracle : String → ℤ → Option ℚ) (symbol : String)
    (timestamp : ℤ) : Option ℚ × ℕ :=
  match alistFind symbolToId (upperStr symbol) with
  | none => (none, 0)
  | some coingeckoId => (oracle coingeckoId timestamp, 1)

/-- `protocol_token.split('-')`. -/
def splitChar (sep : Char) : List Char → List (List Char)
  | [] => [[]]
  | c :: rest =>
    if c = sep then [] :: splitChar sep rest
    else
      match splitChar sep rest with
      | g :: gs => (c :: g) :: gs
      | [] => [[c]]

/-- `PriceFeedBuilder.extract_underlying_asset` (lines 123-148): strip
`PT-…-…`, `aEth`, `a`, `f` protocol prefixes. -/
def extract_underlying_asset (protocol_token : String) : Option String :=
  let ptCase : Option String :=
    if pyStartsWith protocol_token "PT-" then
      match splitChar '-' protocol_token.data with
      | _ :: p :: _ => some ⟨p⟩
      | _ => none
    else none
  match ptCase with
  | some r => some r
  | none =>
    if pyStartsWith protocol_token "aEth" then some (dropStr 4 protocol_token)
    else if pyStartsWith protocol_token "a" && decide (1 < protocol_token.data.length) then
      some (dropStr 1 protocol_token)
    else if pyStartsWith protocol_token "f" then some (dropStr 1 protocol_token)
    else none

/-- `PriceFeedBuilder.calculate_prices_for_trade` (lines 269-380),
instrumented with the count of external (CoinGecko) calls performed.
Strategy order as in the source: 1 stablecoin ratio, 2 price feed,
2b feed ratio, 3 CoinGecko, 3b CoinGecko ratio, 4 protocol-token
underlying, 5 plain ratio, else `"unavailable"` (which discards a found
one-sided price, as the source does).  All `if price:` guards use Python
truthiness (`0.0` falsy). -/
def calculate_prices_for_trade (b : PriceFeedBuilder) (oracle : String → ℤ → Option ℚ)
    (t : Trade) : (Option ℚ × Option ℚ × String) × ℕ :=
  let s1 := calculate_price_from_trade t
  if truthy s1.1 && truthy s1.2 then ((s1.1, s1.2, "stablecoin"), 0)
  else
    let source_symbol := t.token_in_symbol
    let target_symbol := t.token_out_symbol
    let source_amount := t.amount_in
    let target_amount := t.amount_out
    let ts := t.timestamp
    let token_in_addr := lowerStr t.token_in_address
    let token_out_addr := lowerStr t.token_out_address
    let sp1 := if !truthy s1.1 then find_price_in_feed b (some token_in_addr) source_symbol ts 720 else s1.1
    let tp1 := if !truthy s1.2 then find_price_in_feed b (some token_out_addr) target_symbol ts 720 else s1.2
    if truthy sp1 && truthy tp1 then ((sp1, tp1, "feed"), 0)
    else if truthy sp1 && !truthy tp1 && decide (0 < source_amount) && decide (0 < target_amount) then
      ((sp1, some ((sp1.getD 0 * source_amount) / target_amount), "calculated_from_feed"), 0)
    else if truthy tp1 && !truthy sp1 && decide (0 < source_amount) && decide (0 < target_amount) then
      ((some ((tp1.getD 0 * target_amount) / source_amount), tp1, "calculated_from_feed"), 0)
    else
      let g1 := if !truthy sp1 then get_coingecko_price oracle source_symbol ts else (sp1, 0)
      let g2 := if !truthy tp1 then get_coingecko_price oracle target_symbol ts else (tp1, 0)
      let sp2 := g1.1
      let tp2 := g2.1
      let calls := g1.2 + g2.2
      if truthy sp2 && truthy tp2 then ((sp2, tp2, "coingecko"), calls)
      else if truthy sp2 && !truthy tp2 && decide (0 < source_amount) && decide (0 < target_amount) then
        ((sp2, some ((sp2.getD 0 * source_amount) / target_amount), "calculated_from_coingecko"), calls)
      else if truthy tp2 && !truthy sp2 && decide (0 < source_amount) && decide (0 < target_amount) then
        ((some ((tp2.getD 0 * target_amount) / source_amount), tp2, "calculated_from_coingecko"), calls)
      else
        let s4src : Option ((Option ℚ × Option ℚ × String) × ℕ) :=
          if !truthy sp2 then
            match extract_underlying_asset source_symbol with
            | some und =>
              let up := find_price_in_feed b none und ts 720
              if truthy up && decide (0 < source_amount) && decide (0 < target_amount) then
                let exchangeRate := target_amount / source_amount
                if truthy tp2 then some ((some (tp2.getD 0 * exchangeRate), tp2, "derived"), calls)
                else some ((some (up.getD 0 * exchangeRate), some (up.getD 0), "derived"), calls)
              else none
            | none => none
          else none
        match s4src with
        | some r => r
        | none =>
          let s4tgt : Option ((Option ℚ × Option ℚ × String) × ℕ) :=
            if !truthy tp2 then
              match extract_underlying_asset target_symbol with
              | some und =>
                let up := find_price_in_feed b none und ts 720
                if truthy up && decide (0 < source_amount) && decide (0 < target_amount) then
                  let exchangeRate := source_amount / target_amount
                  if truthy sp2 then some ((sp2, some (sp2.getD 0 * exchangeRate), "derived"), calls)
                  else some ((some (up.getD 0), some (up.getD 0 * exchangeRate), "derived"), calls)
                else none
              | none => none
            else none
          match s4tgt with
          | some r => r
          | none =>
            if truthy sp2 && decide (0 < source_amount) && decide (0 < target_amount) then
              ((sp2, some ((sp2.getD 0 * source_amount) / target_amount), "calculated"), calls)
            else if truthy tp2 && decide (0 < source_amount) && decide (0 < target_amount) then
              ((some ((tp2.getD 0 * target_amount) / source_amount), tp2, "calculated"), calls)
            else
              ((none, none, "unavailable"), calls)

/-- Digits of `n`, most significant first (`fuel ≥ n` suffices). -/
def natToCharsAux : ℕ → ℕ → List Char
  | 0, _ => []
  | fuel + 1, n =>
    if n = 0 then [] else natToCharsAux fuel (n / 10) ++ [Char.ofNat (48 + n % 10)]

/-- Decimal rendering of a natural number. -/
def natToStr (n : ℕ) : String := if n = 0 then "0" else ⟨natToCharsAux n n⟩

/-- Zero-pad to two digits (`%m`/`%d` of `strftime`). -/
def pad2 (n : ℕ) : String := if n < 10 then "0" ++ natToStr n else natToStr n

/-- Zero-pad to four digits (`%Y` of `strftime`). -/
def pad4 (n : ℕ) : String :=
  if n < 10 then "000" ++ natToStr n
  else if n < 100 then "00" ++ natToStr n
  else if n < 1000 then "0" ++ natToStr n
  else natToStr n

/-- Civil date from days since the Unix epoch (proleptic Gregorian;
standard era-based algorithm).  Returns `(year, month, day)`. -/
def civilFromDays (z : ℕ) : ℕ × ℕ × ℕ :=
  let z' := z + 719468
  let era := z' / 146097
  let doe := z' % 146097
  let yoe := (doe - doe / 1460 + doe / 36524 - doe / 146097) / 365
  let y := yoe + era * 400
  let doy := doe - (365 * yoe + yoe / 4 - yoe / 100)
  let mp := (5 * doy + 2) / 153
  let d := doy - (153 * mp + 2) / 5 + 1
  let m := if mp < 10 then mp + 3 else mp - 9
  (if m ≤ 2 then y + 1 else y, m, d)

/-- `get_cache_key` of `coingecko.py` (lines 277-289):
`f"{symbol.upper()}_{date}"` with the date rendered `%Y-%m-%d` from the
timestamp.  `datetime.fromtimestamp` uses the host timezone; it is
modelled at a fixed zero (UTC) offset, which keeps the key a deterministic
function of `(symbol, timestamp)`. -/
def get_cache_key (symbol : String) (timestamp : ℕ) : String :=
  let c := civilFromDays (timestamp / 86400)
  upperStr symbol ++ "_" ++ pad4 c.1 ++ "-" ++ pad2 c.2.1 ++ "-" ++ pad2 c.2.2

/-- Modelled from the spec: the read-through `(symbol, date)` price cache
of §4.3.  The cache-consulting resolver is not present under `src/` — only
its key builder `get_cache_key` and the cache-file constant
`DEFAULT_CACHE_FILE` are declared there (`PriceFeedBuilder.
get_coingecko_price` performs an uncached external call).  Per the spec's
cache discipline: the read happens before any external call; a write
happens only after a successful external resolution; a failed lookup
writes nothing.  The final component counts external calls made. -/
def cachedQuoteKeyed (oracle : String → ℕ → Option ℚ) (cache : List (String × ℚ))
    (symbol : String) (timestamp : ℕ) (key : String) : Option ℚ × List (String × ℚ) × ℕ :=
  match alistFind cache key with
  | some p => (some p, cache, 0)
  | none =>
    match oracle symbol timestamp with
    | some p => (some p, (key, p) :: cache, 1)
    | none => (none, cache, 1)

/-- The cache model proper: key the lookup by `get_cache_key`. -/
def cachedQuote (oracle : String → ℕ → Option ℚ) (cache : List (String × ℚ))
    (symbol : String) (timestamp : ℕ) : Option ℚ × List (String × ℚ) × ℕ :=
  cachedQuoteKeyed oracle cache symbol timestamp (get_cache_key symbol timestamp)

/-- `ETH_ADDRESS` of `ethereum_config.py`. -/
def ETH_ADDRESS : String := "0x0000000000000000000000000000000000000000"

/-- `DEX_ROUTERS` of `ethereum_config.py` (name, router address), in
source order. -/
def DEX_ROUTERS : List (String × String) :=
  [("Uniswap V2", "0x7a250d5630B4cF539739dF2C5dAcb4c659F2488D"),
   ("Uniswap V3 Router", "0x68b3465833fb72A70ecDF485E0e4C7bD8665Fc45"),
   ("SushiSwap", "0xd9e1cE17f2641f24aE83637ab66a2cca9C378B9F"),
   ("Curve Router", "0x99C9FC46f92E8a1c0deC1b1747d010903E884bE1"),
   ("1inch V4", "0x1111111254fb6c44bAC0beD2854e76F90643097d"),
   ("1inch V5", "0x1111111254EEB25477B68fb85Ed929f73A960582"),
   ("Balancer V2", "0xBA12222222228d8Ba445958a75a0704d566BF2C8"),
   ("0x Protocol", "0xDef1C0ded9bec7F1a1670819833240f027b25EfF"),
   ("KyberSwap", "0x6131B5fae19EA4f9D964eAc0408E4408b66337b5"),
   ("DODO", "0xa356867fDCEa8e71AEaF87805808803806231FdC"),
   ("Paraswap", "0xDEF171Fe48CF0115B1d80b88dc8eAB59176FEe57"),
   ("CowSwap", "0x9008D19f58AAbD9eD0D60971565AA8510560ab41"),
   ("Bancor", "0x2F9bC877DfB3c0dA6D8238173d855b566E030aF4"),
   ("Fluid.io", "0xBbcb91440523216e2b87052A99F69c604A7b6e00"),
   ("Fluid.io Resolver", "0x26b696D0dfDAB6c894Aa9a6575fCD07BB25BbD2C"),
   ("Matcha", "0xDef1C0ded9bec7F1a1670819833240f027b25EfF"),
   ("GMX", "0x7452c558d24f3C982916791c550C40fCC14b5952"),
   ("PancakeSwap", "0x10ED43C718714eb63d5aA57B78B54704E256024E"),
   ("ShibaSwap", "0x03f7724180AA6b939894B5Ca4314783B0b36b329"),
   ("Clipper", "0x5130f6cE257B8F9bF7fac0A0E519b25c120cB0b6"),
   ("Hashflow", "0xE592427A0AEce92De3Edee1F18E0157C05861564"),
   ("OpenOcean", "0x6352a56caadC4F1E25CD6c75970Fa768A3304e64")]

/-- `SWAP_FUNCTION_SIGNATURES` of `ethereum_config.py` (a set; the literal
duplicates of the source are immaterial to membership). -/
def SWAP_FUNCTION_SIGNATURES : List String :=
  ["0x38ed1739", "0x8803dbee", "0x5c11d795", "0x791ac947", "0x02751cec",
   "0x4a25d94a", "0x7ff36ab5", "0x18cbafe5", "0x414bf389", "0xdb3e2198",
   "0xf28c0498", "0x12aa3caf", "0x2e95b6c8", "0x2521b930", "0xe449022e",
   "0x3df02124", "0xa6417ed6", "0x415565b0", "0x52bbbe29", "0x7c025200",
   "0x3593564c", "0x90411a32"]

/-- `EthereumTradeParser.router_to_dex`: the
`{addr.lower(): name}` comprehension over `DEX_ROUTERS` (later duplicate
addresses overwrite earlier ones, as in a dict). -/
def routerToDex : List (String × String) :=
  DEX_ROUTERS.foldl (fun m p => dictInsert m (lowerStr p.2) p.1) []

/-- An ERC-20 token-transfer record as consumed by the parser. -/
structure TokTransfer where
  hash : String
  fromAddr : String
  toAddr : String
  value : ℤ
  contractAddress : String
deriving DecidableEq, Repr

/-- An internal (native-asset) transaction record. -/
structure InternalTx where
  hash : String
  toAddr : String
  value : ℤ
deriving DecidableEq, Repr

/-- A normal transaction record, with the fields
`_parse_generic_swap` reads. -/
structure EthTx where
  hash : String
  fromAddr : String
  toAddr : String
  value : ℤ
  input : String
  gasUsed : ℤ
  gasPrice : ℤ
  blockNumber : ℤ
  timeStamp : ℤ
deriving DecidableEq, Repr

/-- The transaction data a parser instance holds: the tracked address and
the fetched transfer lists. -/
structure EthChainData where
  address : String
  erc20_token_transfers : List TokTransfer
  internal_transactions : List InternalTx
deriving DecidableEq, Repr

/-- `_build_lookups`' `erc20_by_hash[tx_hash]`: the ERC-20 transfers with a
truthy `contractAddress` whose lowercased hash matches. -/
def erc20ByHash (d : EthChainData) (txHash : String) : List TokTransfer :=
  d.erc20_token_transfers.filter
    (fun t => decide (¬ t.contractAddress = "") && decide (lowerStr t.hash = txHash))

/-- `input[:10].lower() in SWAP_FUNCTION_SIGNATURES` guarded by the length
check the source performs. -/
def hasSwapFunc (input_data : String) : Bool :=
  decide (10 ≤ input_data.data.length)
    && SWAP_FUNCTION_SIGNATURES.contains (lowerStr ⟨input_data.data.take 10⟩)

/-- `EthereumTradeParser._is_dex_interaction` (lines 62-78). -/
def is_dex_interaction (tx : EthTx) : Option String :=
  let to_address := lowerStr tx.toAddr
  match alistFind routerToDex to_address with
  | some name => some name
  | none =>
    if decide (10 ≤ tx.input.data.length) then
      if SWAP_FUNCTION_SIGNATURES.contains (lowerStr ⟨tx.input.data.take 10⟩) then
        match alistFind routerToDex to_address with
        | some n => some n
        | none => some "Unknown DEX"
      else none
    else none

/-- A parsed swap dict (`token_in`/`token_out` are always strings at
return time; amounts are the integers the source stringifies). -/
structure SwapRec where
  tx_hash : String
  block_number : ℤ
  timestamp : ℤ
  dex : String
  token_in : String
  token_out : String
  amount_in : ℤ
  amount_out : ℤ
deriving DecidableEq, Repr

/-- `m[k] = m.get(k, 0) + v` on an amount dict. -/
def aggAdd (m : List (String × ℤ)) (k : String) (v : ℤ) : List (String × ℤ) :=
  match m with
  | [] => [(k, v)]
  | (k', v') :: rest => if k' = k then (k', v' + v) :: rest else (k', v') :: aggAdd rest k v

/-- The sent/received aggregation loops of the parsers: `if from == our:`
sum into sent, `elif to == our:` sum into received. -/
def buildSentReceived (our : String) (transfers : List TokTransfer) :
    List (String × ℤ) × List (String × ℤ) :=
  transfers.foldl (fun acc t =>
    if lowerStr t.fromAddr = our then
      (aggAdd acc.1 (lowerStr t.contractAddress) t.value, acc.2)
    else if lowerStr t.toAddr = our then
      (acc.1, aggAdd acc.2 (lowerStr t.contractAddress) t.value)
    else acc) ([], [])

/-- Python `max(d.items(), key=lambda x: x[1])` over a non-empty dict:
first maximal item in insertion order; `none` for an empty dict. -/
def maxBySnd : List (String × ℤ) → Option (String × ℤ)
  | [] => none
  | x :: rest => some (rest.foldl (fun best y => if best.2 < y.2 then y else best) x)

/-- The internal-transaction scan of `_parse_eth_swap` (lines 217-222):
native amount received by `our` within the transaction `txHash`. -/
def ethReceivedFor (d : EthChainData) (txHash our : String) : ℤ :=
  d.internal_transactions.foldl (fun s i =>
    if decide (lowerStr i.hash = txHash) && decide (lowerStr i.toAddr = our) then s + i.value
    else s) 0

/-- `EthereumTradeParser._parse_eth_swap` (lines 145-239). -/
def parse_eth_swap (d : EthChainData) (tx : EthTx) (erc20_transfers : List TokTransfer) :
    Option SwapRec :=
  let our_addr := lowerStr d.address
  let tx_hash := lowerStr tx.hash
  let tx_from := lowerStr tx.fromAddr
  let eth_value := tx.value
  let is_eth_in := decide (0 < eth_value) && decide (tx_from = our_addr)
  let tx_to := lowerStr tx.toAddr
  let has_swap_function := hasSwapFunc tx.input
  let is_dex_router := (alistFind routerToDex tx_to).isSome
  if decide (tx_to = our_addr) && decide (¬ tx_from = our_addr)
      && decide (0 < eth_value) && decide (eth_value < 100000000000000000)
      && !has_swap_function && !is_dex_router
      && decide (erc20_transfers.length = 0) then
    none
  else
    let tokens_received := erc20_transfers.foldl (fun m t =>
      if lowerStr t.toAddr = our_addr then aggAdd m (lowerStr t.contractAddress) t.value
      else m) []
    if is_eth_in && !tokens_received.isEmpty then
      match maxBySnd tokens_received with
      | some (token_out, amount_out) =>
        if eth_value < 100000000000000000 then none
        else
          some ⟨tx.hash, tx.blockNumber, tx.timeStamp,
            (is_dex_interaction tx).getD "Unknown DEX",
            ETH_ADDRESS, token_out, eth_value, amount_out⟩
      | none => none
    else
      let tokens_sent := erc20_transfers.foldl (fun m t =>
        if lowerStr t.fromAddr = our_addr then aggAdd m (lowerStr t.contractAddress) t.value
        else m) []
      let eth_received := ethReceivedFor d tx_hash our_addr
      if !tokens_sent.isEmpty && decide (0 < eth_received) then
        match maxBySnd tokens_sent with
        | some (token_in, amount_in) =>
          some ⟨tx.hash, tx.blockNumber, tx.timeStamp,
            (is_dex_interaction tx).getD "Unknown DEX",
            token_in, ETH_ADDRESS, amount_in, eth_received⟩
        | none => none
      else none

/-- `EthereumTradeParser._parse_uniswap_v2_swap` (lines 80-131). -/
def parse_uniswap_v2_swap (d : EthChainData) (tx : EthTx)
    (erc20_transfers : List TokTransfer) : Option SwapRec :=
  if erc20_transfers.length < 2 then none
  else
    let our_addr := lowerStr d.address
    let our_transfers := erc20_transfers.filter (fun t =>
      decide (lowerStr t.fromAddr = our_addr) || decide (lowerStr t.toAddr = our_addr))
    if our_transfers.length < 2 then none
    else
      let sr := buildSentReceived our_addr our_transfers
      match maxBySnd sr.1, maxBySnd sr.2 with
      | some (token_in, amount_in), some (token_out, amount_out) =>
        if decide (¬ token_in = "") && decide (¬ token_out = "")
            && decide (¬ token_in = token_out)
            && decide (0 < amount_in) && decide (0 < amount_out) then
          some ⟨tx.hash, tx.blockNumber, tx.timeStamp,
            (is_dex_interaction tx).getD "Uniswap V2",
            token_in, token_out, amount_in, amount_out⟩
        else none
      | _, _ => none

/-- `EthereumTradeParser._parse_uniswap_v3_swap` (lines 133-143): the V2
parse relabelled. -/
def parse_uniswap_v3_swap (d : EthChainData) (tx : EthTx)
    (erc20_transfers : List TokTransfer) : Option SwapRec :=
  match parse_uniswap_v2_swap d tx erc20_transfers with
  | some s => some { s with dex := "Uniswap V3" }
  | none => none

/-- The tail of `_parse_generic_swap` (lines 417-465), reached when the
aggregated-transfer block produced no swap: filter small native transfers
(the two small-value filters of the source collapse to one condition),
then fall back to the ETH parser (fewer than two transfers) or the
V2/V3/ETH parser chain. -/
def parseGenericTail (d : EthChainData) (tx : EthTx)
    (erc20_transfers : List TokTransfer) : Option SwapRec :=
  let tx_value := tx.value
  let has_swap_function := hasSwapFunc tx.input
  let is_dex_router := (alistFind routerToDex (lowerStr tx.toAddr)).isSome
  if decide (erc20_transfers.length = 0) && decide (0 < tx_value)
      && decide (tx_value < 100000000000000000)
      && !has_swap_function && !is_dex_router then
    none
  else if erc20_transfers.length < 2 then parse_eth_swap d tx erc20_transfers
  else
    match parse_uniswap_v2_swap d tx erc20_transfers with
    | some s => some s
    | none =>
      match parse_uniswap_v3_swap d tx erc20_transfers with
      | some s => some s
      | none => parse_eth_swap d tx erc20_transfers

/-- `EthereumTradeParser._parse_generic_swap` (lines 284-465): early
small-receive filters; then, when at least two of our transfers (or one
plus a contract call with input data) are present, aggregate per-token
amounts, pick dominant legs, and — failing the two-leg condition — the
swap-function-signature branch that synthesizes a native-asset leg with
the transaction value (or a placeholder amount of 1 when that value is
zero); an accepted candidate passes a native-dust filter.  Otherwise the
tail chain runs. -/
def parse_generic_swap (d : EthChainData) (tx : EthTx) : Option SwapRec :=
  let tx_hash := lowerStr tx.hash
  let erc20_transfers := erc20ByHash d tx_hash
  let our_address_lower := lowerStr d.address
  let tx_from := lowerStr tx.fromAddr
  let tx_to := lowerStr tx.toAddr
  let tx_value := tx.value
  let input_data := tx.input
  let has_input_data := decide (¬ input_data = "0x") && decide (10 < input_data.data.length)
  let has_swap_function := hasSwapFunc input_data
  let is_dex_router := (alistFind routerToDex tx_to).isSome
  if decide (tx_to = our_address_lower) && decide (¬ tx_from = our_address_lower)
      && decide (0 < tx_value) && decide (tx_value < 100000000000000000)
      && !has_swap_function && !is_dex_router
      && decide (erc20_transfers.length = 0) then
    none
  else if decide (tx_to = our_address_lower) && decide (¬ tx_from = our_address_lower)
      && decide (0 < tx_value) && decide (tx.gasUsed = 21000)
      && !has_input_data && decide (erc20_transfers.length = 0) then
    none
  else
    let our_transfers := erc20_transfers.filter (fun t =>
      decide (lowerStr t.fromAddr = our_address_lower)
        || decide (lowerStr t.toAddr = our_address_lower))
    let is_contract_interaction := decide (¬ tx_to = "")
      && decide (¬ tx_to = our_address_lower) && decide (¬ tx_to = "0x")
    if decide (2 ≤ our_transfers.length)
        || (decide (1 ≤ our_transfers.length) && is_contract_interaction && has_input_data) then
      let sr := buildSentReceived our_address_lower our_transfers
      let tokens_sent := sr.1
      let tokens_received := sr.2
      let amount_in := match maxBySnd tokens_sent with | some p => p.2 | none => 0
      let amount_out := match maxBySnd tokens_received with | some p => p.2 | none => 0
      let cand1 : Option (String × String × ℤ × ℤ) :=
        match maxBySnd tokens_sent, maxBySnd tokens_received with
        | some (ti, _), some (to_, _) =>
          if decide (¬ ti = "") && decide (¬ to_ = "") && decide (¬ ti = to_)
              && decide (0 < amount_in) && decide (0 < amount_out)
              && !tokens_sent.isEmpty then
            some (ti, to_, amount_in, amount_out)
          else none
        | _, _ => none
      let swapChoice : Option (String × String × ℤ × ℤ) :=
        match cand1 with
        | some c => some c
        | none =>
          if decide (1 ≤ our_transfers.length) && is_contract_interaction && has_input_data then
            let func_sig :=
              if decide (10 ≤ input_data.data.length) then lowerStr ⟨input_data.data.take 10⟩
              else ""
            if SWAP_FUNCTION_SIGNATURES.contains func_sig then
              let tiOk := match maxBySnd tokens_sent with
                | some (ti, _) => decide (¬ ti = "") && decide (0 < amount_in)
                | none => false
              let toOk := match maxBySnd tokens_received with
                | some (to_, _) => decide (¬ to_ = "") && decide (0 < amount_out)
                | none => false
              if tiOk then
                some ((maxBySnd tokens_sent).map Prod.fst |>.getD "", ETH_ADDRESS,
                  amount_in, if tx_value = 0 then 1 else tx_value)
              else if toOk then
                some (ETH_ADDRESS, (maxBySnd tokens_received).map Prod.fst |>.getD "",
                  (if tx_value = 0 then 1 else tx_value), amount_out)
              else none
            else none
          else none
      match swapChoice with
      | some (token_in, token_out, amount_in, amount_out) =>
        if decide (token_in = lowerStr ETH_ADDRESS)
            && decide (amount_in < 10000000000000000)
            && (decide (token_out = "") || decide (token_out = lowerStr ETH_ADDRESS)) then
          none
        else
          some ⟨tx.hash, tx.blockNumber, tx.timeStamp,
            (is_dex_interaction tx).getD "Unknown DEX",
            token_in, token_out, amount_in, amount_out⟩
      | none => parseGenericTail d tx erc20_transfers
    else parseGenericTail d tx erc20_transfers

/-- Sample acquisition date 2024-01-01. -/
def demoDate1 : PyDateTime := ⟨2024, 1, 1, 0, 0, 0⟩

/-- Sample acquisition date 2024-02-01. -/
def demoDate2 : PyDateTime := ⟨2024, 2, 1, 0, 0, 0⟩

/-- The two-lot inventory of the spec's worked example:
(amount 100, cost $150) then (amount 50, cost $100) for one asset. -/
def demoInventory : Inventory :=
  add_lot (add_lot [] "TOK" 100 150 1 demoDate1) "TOK" 50 100 2 demoDate2

/-- A demo call sequence for the conservation invariant. -/
def demoOps : List FifoOp :=
  [.add "TOK" 100 150 1 demoDate1, .add "TOK" 50 100 2 demoDate2,
   .sell "TOK" 120 (5/2), .sell "TOK" 60 3, .add "ETH" 2 4000 3 demoDate2]

/-- The swap of the spec's pricing example: 1000 USDC in, 0.5 WETH out. -/
def usdcWethTrade : Trade :=
  { token_in_symbol := "USDC", token_out_symbol := "WETH",
    token_in_address := "0xA0b86991c6218b36c1d19D4a2e9Eb0cE3606eB48",
    token_out_address := "0xC02aaA39b223FE8D0A0e5C4F27eAD9083C756Cc2",
    amount_in := 1000, amount_out := 1/2, timestamp := 1700000000 }

/-- An external quote source that succeeds for every id (used to show the
stablecoin rule fires without the source even being consulted). -/
def oracleAlwaysSucceeds : String → ℤ → Option ℚ := fun _ _ => some 5

/-- An external quote source that fails for `ethereum` (the id WETH maps
to), matching the example's "external quote for WETH fails". -/
def oracleWethFails : String → ℤ → Option ℚ :=
  fun cgId _ => if cgId = "ethereum" then none else some 1

/-- An empty price-feed builder. -/
def emptyFeed : PriceFeedBuilder := ⟨[], []⟩

/-- C8 counterexample data: the tracked address sent 5 of one token in tx
`0xh1`; it received nothing, and there is no native-asset movement
(transaction value 0, no internal transactions). -/
def c8data : EthChainData :=
  ⟨"0xaaa", [⟨"0xh1", "0xaaa", "0xpool", 5, "0xtoka"⟩], []⟩

/-- C8 counterexample transaction: a contract call whose input data starts
with the `swapExactTokensForTokens` signature, with zero native value. -/
def c8tx : EthTx :=
  ⟨"0xh1", "0xaaa", "0xrrr", 0, "0x38ed1739ab", 50000, 1, 1, 1000⟩

/-- The same transaction without call data (a plain transfer context). -/
def c8txPlain : EthTx :=
  ⟨"0xh1", "0xaaa", "0xrrr", 0, "0x", 50000, 1, 1, 1000⟩

/-- C4 failing row: the amount `"abc"` is malformed (not `N/A`). -/
def badAmountRow : TradeRow :=
  ⟨"2024/01/01 00:00:00", "ABC", "abc", "USD", "100", "uniswap", "0xaaa"⟩

/-- A well-formed SELL row that follows the failing row in the batch. -/
def laterSellRow : TradeRow :=
  ⟨"2024/01/02 00:00:00", "ABC", "1", "USD", "50", "uniswap", "0xaaa"⟩

/-- A token-for-token row (neither side `USD`). -/
def tokenTokenRow : TradeRow :=
  ⟨"2024/01/01 00:00:00", "AAA", "1", "BBB", "2", "uniswap", "0xaaa"⟩

/-- C9 counterexample record with unpadded hour `9` (accepted by
`strptime`). -/
def recNineAM : TaxRecord :=
  ⟨1, "2024/01/01 9:00:00", "TOK", 1, 1, 1, 0, [], "uniswap", "0xaaa"⟩

/-- C9 counterexample record, one hour later, padded. -/
def recTenAM : TaxRecord :=
  ⟨2, "2024/01/01 10:00:00", "TOK", 1, 1, 1, 0, [], "uniswap", "0xaaa"⟩

/-- An external source for the cache model's witness. -/
def oracleCacheDemo : String → ℕ → Option ℚ := fun _ _ => some (3/2)

theorem sumAmount_nil : sumAmount [] = 0 := rfl

theorem sumAmount_cons (l : Lot) (ls : List Lot) :
    sumAmount (l :: ls) = l.amount + sumAmount ls := by
  simp [sumAmount]

theorem sumAmount_append (a b : List Lot) :
    sumAmount (a ++ b) = sumAmount a + sumAmount b := by
  simp [sumAmount]

theorem sumCost_nil : sumCost [] = 0 := rfl

theorem sumCost_cons (l : Lot) (ls : List Lot) :
    sumCost (l :: ls) = l.cost_basis_usd + sumCost ls := by
  simp [sumCost]

theorem sumInv_nil : sumInv [] = 0 := rfl

theorem sumInv_cons (e : String × List Lot) (rest : Inventory) :
    sumInv (e :: rest) = sumAmount e.2 + sumInv rest := by
  simp [sumInv]

theorem sumInv_setInv (inv : Inventory) (t : String) (v : List Lot) :
    sumInv (setInv inv t v) = sumInv inv - sumAmount (lookupInv inv t) + sumAmount v := by
  induction inv with
  | nil => simp [setInv, lookupInv, sumInv_cons, sumInv_nil, sumAmount_nil]
  | cons e rest ih =>
    obtain ⟨k, w⟩ := e
    by_cases h : k = t
    · subst h
      simp [setInv, lookupInv, sumInv_cons]
      ring
    · simp [setInv, lookupInv, h, sumInv_cons, ih]
      ring

theorem matchLoop_sum (lots : List Lot) (rem : ℚ) :
    sumAmount lots = sumAmount (matchLoop lots rem).lots + (matchLoop lots rem).consumed := by
  induction lots generalizing rem with
  | nil => simp [matchLoop, sumAmount_nil]
  | cons lot rest ih =>
    by_cases h1 : 0 < rem
    · by_cases h2 : lot.amount ≤ rem
      · have ih' := ih (rem - lot.amount)
        simp only [matchLoop, if_pos h1, if_pos h2, sumAmount_cons]
        linarith
      · simp only [matchLoop, if_pos h1, if_neg h2, sumAmount_cons]
        ring
    · simp only [matchLoop, if_neg h1, sumAmount_cons]
      ring

theorem applyFifoOp_invariant (s : CalcAcc) (op : FifoOp) (h : fifoInvariant s) :
    fifoInvariant (applyFifoOp s op) := by
  cases op with
  | add t a c tid d =>
    simp only [fifoInvariant, applyFifoOp, add_lot] at h ⊢
    rw [sumInv_setInv, sumAmount_append]
    simp [sumAmount_cons, sumAmount_nil, mkLot]
    linarith
  | sell t amt price =>
    simp only [fifoInvariant, applyFifoOp, match_sell_fifo] at h ⊢
    by_cases he : (lookupInv s.inv t).isEmpty
    · simp [he, h]
    · simp only [he, if_neg, Bool.false_eq_true, if_false]
      rw [sumInv_setInv]
      have hs := matchLoop_sum (lookupInv s.inv t) amt
      linarith

/-- C1.  For every sequence of `add_lot` / `match_sell_fifo` calls with
positive added amounts, at every point the remaining amount over all lots
plus the total amount consumed from lots by the matches equals the total
amount added: matching neither creates nor destroys tokens.  (The
conservation in fact holds for arbitrary amounts; the claim's positivity
hypothesis is carried but not needed.) -/
theorem fifo_amount_conservation (ops : List FifoOp)
    (hpos : ∀ op ∈ ops, addAmountsPositive op = true) :
    sumInv (runFifoOps ops).inv + (runFifoOps ops).matched = (runFifoOps ops).added := by
  clear hpos
  have key : ∀ (l : List FifoOp) (s : CalcAcc), fifoInvariant s →
      fifoInvariant (l.foldl applyFifoOp s) := by
    intro l
    induction l with
    | nil => intro s hs; exact hs
    | cons op rest ih =>
      intro s hs
      exact ih (applyFifoOp s op) (applyFifoOp_invariant s op hs)
  have h0 : fifoInvariant ⟨[], 0, 0⟩ := by simp [fifoInvariant, sumInv_nil]
  exact key ops ⟨[], 0, 0⟩ h0

/-- Witness for C1 at a concrete call sequence. -/
theorem fifo_amount_conservation_witness :
    sumInv (runFifoOps demoOps).inv + (runFifoOps demoOps).matched = (runFifoOps demoOps).added :=
  fifo_amount_conservation demoOps (by decide)

/-- C5.  On the inventory holding (amount 100, cost $150, acquired
2024-01-01) then (amount 50, cost $100, acquired 2024-02-01), matching a
disposal of 120 units at fallback unit price 2.5 consumes all of lot 1 and
20/50 of lot 2, returns cost basis exactly 190 with both acquisition ids
matched, and leaves lot 2 with 30 units and $60 of cost basis (its
per-token cost, computed at construction, stays 2). -/
theorem fifo_worked_example :
    match_sell_fifo demoInventory "TOK" 120 (5/2)
      = (190, [1, 2], [("TOK", [⟨2, 30, 60, demoDate2, "TOK", 2⟩])]) := by
  norm_num [demoInventory, match_sell_fifo, add_lot, mkLot, setInv, lookupInv, matchLoop]

theorem sumAmount_nonneg (lots : List Lot) (h : ∀ l ∈ lots, 0 < l.amount) :
    0 ≤ sumAmount lots := by
  induction lots with
  | nil => simp [sumAmount_nil]
  | cons lot rest ih =>
    have h1 : 0 < lot.amount := h lot (by simp)
    have h2 : 0 ≤ sumAmount rest := ih (fun l hl => h l (by simp [hl]))
    rw [sumAmount_cons]
    linarith

theorem matchLoop_exhaust (lots : List Lot) (amt : ℚ)
    (hpos : ∀ l ∈ lots, 0 < l.amount) (hlt : sumAmount lots < amt) :
    matchLoop lots amt
      = ⟨sumCost lots, lots.map Lot.trade_id, [], amt - sumAmount lots, sumAmount lots⟩ := by
  induction lots generalizing amt with
  | nil => simp [matchLoop, sumAmount_nil, sumCost_nil]
  | cons lot rest ih =>
    have hl : 0 < lot.amount := hpos lot (by simp)
    have hrest : ∀ l ∈ rest, 0 < l.amount := fun l hl' => hpos l (by simp [hl'])
    have hr0 : 0 ≤ sumAmount rest := sumAmount_nonneg rest hrest
    have hcons : sumAmount (lot :: rest) = lot.amount + sumAmount rest := sumAmount_cons lot rest
    rw [hcons] at hlt
    have h1 : 0 < amt := by linarith
    have h2 : lot.amount ≤ amt := by linarith
    have ih' := ih (amt - lot.amount) hrest (by linarith)
    simp only [matchLoop, if_pos h1, if_pos h2, ih', sumCost_cons, sumAmount_cons,
      List.map_cons, MatchRes.mk.injEq]
    refine ⟨trivial, trivial, trivial, by ring, trivial⟩

/-- C6.  When the token's queue is empty — or holds (positively sized)
lots totalling less than the disposal — `match_sell_fifo` still returns
(totally): the covered part contributes the consumed lots' cost bases, the
uncovered remainder's cost basis is exactly
`sale_price_per_token * uncovered` (zero gain on that part), and every
reported acquisition id comes from a pre-existing lot (none is fabricated
for the uncovered part; an empty queue reports no ids at all). -/
theorem match_sell_fifo_no_inventory (inv : Inventory) (tok : String) (amt price : ℚ)
    (hpos : ∀ l ∈ lookupInv inv tok, 0 < l.amount)
    (hlt : sumAmount (lookupInv inv tok) < amt) :
    (match_sell_fifo inv tok amt price).1
        = sumCost (lookupInv inv tok) + (amt - sumAmount (lookupInv inv tok)) * price
      ∧ (match_sell_fifo inv tok amt price).2.1 = (lookupInv inv tok).map Lot.trade_id := by
  by_cases he : (lookupInv inv tok).isEmpty
  · have hnil : lookupInv inv tok = [] := by
      cases h : lookupInv inv tok with
      | nil => rfl
      | cons a b => rw [h] at he; simp [List.isEmpty] at he
    constructor
    · simp [match_sell_fifo, hnil, sumCost_nil, sumAmount_nil]
    · simp [match_sell_fifo, hnil]
  · have hx := matchLoop_exhaust (lookupInv inv tok) amt hpos hlt
    have hrem : (0 : ℚ) < amt - sumAmount (lookupInv inv tok) := by linarith
    simp only [match_sell_fifo, he, Bool.false_eq_true, if_false, hx, if_pos hrem]
    exact ⟨trivial, trivial⟩

/-- Witness for C6: a single 10-unit lot against a 25-unit disposal at
price 3. -/
theorem match_sell_fifo_no_inventory_witness :
    (match_sell_fifo (add_lot [] "TOK" 10 20 1 demoDate1) "TOK" 25 3).1
        = sumCost (lookupInv (add_lot [] "TOK" 10 20 1 demoDate1) "TOK")
          + (25 - sumAmount (lookupInv (add_lot [] "TOK" 10 20 1 demoDate1) "TOK")) * 3
      ∧ (match_sell_fifo (add_lot [] "TOK" 10 20 1 demoDate1) "TOK" 25 3).2.1
        = (lookupInv (add_lot [] "TOK" 10 20 1 demoDate1) "TOK").map Lot.trade_id :=
  match_sell_fifo_no_inventory (add_lot [] "TOK" 10 20 1 demoDate1) "TOK" 25 3
    (by norm_num [add_lot, mkLot, setInv, lookupInv])
    (by norm_num [add_lot, mkLot, setInv, lookupInv, sumAmount])

/-- C10.  A row in which neither currency is `USD` (a token-for-token
swap) falls through both the SELL and BUY branches of `process_trades`: it
adds no lot, consumes no lot (the inventory is untouched), records no
trade, and emits no tax record — whichever way its amounts and date parse.
(The row does still consume a trade id, which labels later records but
affects no cost basis or gain.) -/
theorem token_token_row_ignored (st : PState) (row : TradeRow)
    (hs : ¬ row.source_currency = "USD") (ht : ¬ row.target_currency = "USD") :
    (processRow st row).1.inventory = st.inventory
      ∧ (processRow st row).1.all_trades = st.all_trades
      ∧ (processRow st row).2.1 = none := by
  by_cases hNA : row.target_amount = "N/A" ∨ row.source_amount = "N/A"
  · simp [processRow, hNA]
  · cases hps : decimalParse row.source_amount with
    | none => simp [processRow, hNA, hps]
    | some sa =>
      cases hpt : decimalParse row.target_amount with
      | none => simp [processRow, hNA, hps, hpt]
      | some ta =>
        cases hd : strptimeYmdHMS row.date_time with
        | none => simp [processRow, hNA, hps, hpt, hd]
        | some d => simp [processRow, hNA, hps, hpt, hd, ht, hs]

/-- Witness for C10 on a concrete AAA→BBB row. -/
theorem token_token_row_ignored_witness :
    (processRow initialPState tokenTokenRow).1.inventory = initialPState.inventory
      ∧ (processRow initialPState tokenTokenRow).1.all_trades = initialPState.all_trades
      ∧ (processRow initialPState tokenTokenRow).2.1 = none :=
  token_token_row_ignored initialPState tokenTokenRow (by decide) (by decide)

/-- C4 (refuting evidence).  A row whose amount field holds the malformed
string `"abc"` makes the batch abort: `Decimal('abc')` raises
`decimal.InvalidOperation`, which the `except (ValueError, TypeError)`
clause of `process_trades` does not catch — the well-formed SELL row after
it is never processed and no record is emitted.  The spec (and the
source's own warning message) intend such a row to be skipped. -/
theorem malformed_amount_aborts_batch :
    (processTrades initialPState [badAmountRow, laterSellRow]).2.2 = some PyErr.invalidOperation
      ∧ (processTrades initialPState [badAmountRow, laterSellRow]).2.1 = [] := by
  decide

theorem charsLe_total : ∀ a b : List Char, (charsLe a b || charsLe b a) = true
  | [], _ => by simp [charsLe]
  | _ :: _, [] => by simp [charsLe]
  | a :: as, b :: bs => by
    simp only [charsLe]
    rcases Nat.lt_trichotomy a.toNat b.toNat with h | h | h
    · simp [h]
    · simp only [h, Nat.lt_irrefl, if_false, if_pos rfl, if_neg (Nat.lt_irrefl b.toNat)]
      exact charsLe_total as bs
    · simp [h, Nat.lt_asymm h, Nat.ne_of_gt h]

theorem charsLe_trans : ∀ a b c : List Char,
    charsLe a b = true → charsLe b c = true → charsLe a c = true
  | [], _, _ => by simp [charsLe]
  | _ :: _, [], _ => by simp [charsLe]
  | _ :: _, _ :: _, [] => by simp [charsLe]
  | a :: as, b :: bs, c :: cs => by
    simp only [charsLe]
    intro hab hbc
    rcases Nat.lt_trichotomy a.toNat b.toNat with h1 | h1 | h1
    · rcases Nat.lt_trichotomy b.toNat c.toNat with h2 | h2 | h2
      · simp [Nat.lt_trans h1 h2]
      · simp [h2 ▸ h1]
      · rw [if_neg (Nat.lt_asymm h2), if_neg (Nat.ne_of_gt h2)] at hbc
        exact absurd hbc (by simp)
    · rcases Nat.lt_trichotomy b.toNat c.toNat with h2 | h2 | h2
      · simp [h1 ▸ h2]
      · rw [if_neg (h1 ▸ Nat.lt_irrefl a.toNat), if_pos h1] at hab
        rw [if_neg (h2 ▸ Nat.lt_irrefl b.toNat), if_pos h2] at hbc
        rw [if_neg ((h1.trans h2) ▸ Nat.lt_irrefl a.toNat), if_pos (h1.trans h2)]
        exact charsLe_trans as bs cs hab hbc
      · rw [if_neg (Nat.lt_asymm h2), if_neg (Nat.ne_of_gt h2)] at hbc
        exact absurd hbc (by simp)
    · rw [if_neg (Nat.lt_asymm h1), if_neg (Nat.ne_of_gt h1)] at hab
      exact absurd hab (by simp)

/-- C9 (amended).  The exported rows are a permutation of the tax records
sorted descending by the raw `date_time` string (Python's lexicographic
string order) — which coincides with chronological order only for
zero-padded timestamps. -/
theorem export_sort_descending_by_string (records : List TaxRecord) :
    List.Pairwise (fun a b => pyStrLe b.date_time a.date_time = true)
        (exportSortRecords records)
      ∧ (exportSortRecords records).Perm records := by
  constructor
  · exact List.sorted_mergeSort
      (fun a b c hab hbc => charsLe_trans c.date_time.data b.date_time.data a.date_time.data hbc hab)
      (fun a b => charsLe_total b.date_time.data a.date_time.data)
      records
  · exact List.mergeSort_perm records _

/-- C9 (counterexample).  Two records dated 9:00 and 10:00 of the same day
— both accepted by the pipeline's own date parser — are exported in the
order [9:00, 10:00]: the string sort puts `"… 9:00:00"` first because
`'9' > '1'`, so the most recent disposal is NOT first and the output is
not in descending chronological order. -/
theorem export_sort_not_chronological :
    exportSortRecords [recNineAM, recTenAM] = [recNineAM, recTenAM]
      ∧ strptimeYmdHMS recNineAM.date_time = some ⟨2024, 1, 1, 9, 0, 0⟩
      ∧ strptimeYmdHMS recTenAM.date_time = some ⟨2024, 1, 1, 10, 0, 0⟩
      ∧ dtBefore ⟨2024, 1, 1, 9, 0, 0⟩ ⟨2024, 1, 1, 10, 0, 0⟩ := by
  refine ⟨?_, by decide, by decide, by decide⟩
  exact List.mergeSort_of_sorted (by decide)

theorem calc_price_usdcweth : calculate_price_from_trade usdcWethTrade = (some 1, some 2000) := by
  have h0 : ¬ (usdcWethTrade.amount_in = 0 ∨ usdcWethTrade.amount_out = 0) := by
    norm_num [usdcWethTrade]
  have h1 : is_stablecoin (upperStr usdcWethTrade.token_in_symbol) = true := by decide
  simp only [calculate_price_from_trade, if_neg h0, if_pos h1]
  rw [if_pos (show (0 : ℚ) < usdcWethTrade.amount_out by norm_num [usdcWethTrade])]
  norm_num [usdcWethTrade]

/-- C2 (counterexample).  For the swap `1000 USDC -> 0.5 WETH`, the
resolver assigns the stablecoin price `1.00` (and the ratio-derived
counter-leg price) as its FIRST strategy, making ZERO external calls even
against an external source that would succeed for every symbol: the
stablecoin assumption is applied ahead of — not after — the external
lookup. -/
theorem stablecoin_applied_before_external :
    calculate_prices_for_trade emptyFeed oracleAlwaysSucceeds usdcWethTrade
      = ((some 1, some 2000, "stablecoin"), 0) := by
  simp only [calculate_prices_for_trade, calc_price_usdcweth]
  norm_num [truthy]

/-- C2 (amended).  Whenever the stablecoin rule of
`calculate_price_from_trade` yields both (truthy) prices, the resolver
returns them with `price_source = "stablecoin"` and performs no external
call at all: the stablecoin fallback is the first strategy, applied before
the external quote source rather than after it. -/
theorem stablecoin_rule_is_first_strategy (b : PriceFeedBuilder)
    (oracle : String → ℤ → Option ℚ) (t : Trade)
    (h1 : truthy (calculate_price_from_trade t).1 = true)
    (h2 : truthy (calculate_price_from_trade t).2 = true) :
    calculate_prices_for_trade b oracle t
      = (((calculate_price_from_trade t).1, (calculate_price_from_trade t).2, "stablecoin"), 0) := by
  simp only [calculate_prices_for_trade, h1, h2, Bool.and_self, if_true]

/-- Witness for the amended C2 at the concrete USDC→WETH swap. -/
theorem stablecoin_rule_is_first_strategy_witness :
    calculate_prices_for_trade emptyFeed oracleWethFails usdcWethTrade
      = (((calculate_price_from_trade usdcWethTrade).1,
          (calculate_price_from_trade usdcWethTrade).2, "stablecoin"), 0) :=
  stablecoin_rule_is_first_strategy emptyFeed oracleWethFails usdcWethTrade
    (by rw [calc_price_usdcweth]; norm_num [truthy])
    (by rw [calc_price_usdcweth]; norm_num [truthy])

/-- C7 (amended).  For the swap `1000 USDC -> 0.5 WETH` with USDC a
recognized stablecoin and the external WETH quote failing, the resolver
returns source price `1.00`, target price `2000 = 1000 * 1.00 / 0.5`, and
`price_source = "stablecoin"` (with no external call made). -/
theorem usdc_weth_example_prices :
    calculate_prices_for_trade emptyFeed oracleWethFails usdcWethTrade
      = ((some 1, some 2000, "stablecoin"), 0) := by
  simp only [calculate_prices_for_trade, calc_price_usdcweth]
  norm_num [truthy]

/-- C7 (counterexample).  The `price_source` emitted for that swap is the
string `"stablecoin"`, not `"stablecoin_ratio"`: no strategy of
`calculate_prices_for_trade` ever emits `"stablecoin_ratio"`. -/
theorem price_source_is_not_stablecoin_ratio :
    (calculate_prices_for_trade emptyFeed oracleWethFails usdcWethTrade).1.2.2 = "stablecoin"
      ∧ ¬ (calculate_prices_for_trade emptyFeed oracleWethFails usdcWethTrade).1.2.2
          = "stablecoin_ratio" := by
  have h : calculate_prices_for_trade emptyFeed oracleWethFails usdcWethTrade
      = ((some 1, some 2000, "stablecoin"), 0) := by
    simp only [calculate_prices_for_trade, calc_price_usdcweth]
    norm_num [truthy]
  rw [h]
  exact ⟨rfl, by decide⟩

theorem alistFind_cons_self {β : Type} (k : String) (v : β) (rest : List (String × β)) :
    alistFind ((k, v) :: rest) k = some v := by simp [alistFind]

theorem cached_quote_keyed_idem (oracle : String → ℕ → Option ℚ)
    (cache : List (String × ℚ)) (symbol : String) (ts : ℕ) (key : String) (p : ℚ)
    (hfresh : alistFind cache key = none)
    (hsucc : oracle symbol ts = some p) :
    (cachedQuoteKeyed oracle cache symbol ts key).1 = some p
      ∧ cachedQuoteKeyed oracle ((cachedQuoteKeyed oracle cache symbol ts key).2.1) symbol ts key
        = (some p, (cachedQuoteKeyed oracle cache symbol ts key).2.1, 0) := by
  have h1 : cachedQuoteKeyed oracle cache symbol ts key = (some p, (key, p) :: cache, 1) := by
    unfold cachedQuoteKeyed
    rw [hfresh, hsucc]
  rw [h1]
  refine ⟨rfl, ?_⟩
  unfold cachedQuoteKeyed
  rw [alistFind_cons_self]

/-- C3.  Against the spec-modelled read-through cache: when the
`(symbol, date)` key is not yet cached and the external source resolves a
price, the first call returns that price and writes it; a second call for
the same `(symbol, timestamp)` returns the identical price from the cache
with ZERO external calls and leaves the cache unchanged. -/
theorem cached_quote_idempotent (oracle : String → ℕ → Option ℚ)
    (cache : List (String × ℚ)) (symbol : String) (ts : ℕ) (p : ℚ)
    (hfresh : alistFind cache (get_cache_key symbol ts) = none)
    (hsucc : oracle symbol ts = some p) :
    (cachedQuote oracle cache symbol ts).1 = some p
      ∧ cachedQuote oracle ((cachedQuote oracle cache symbol ts).2.1) symbol ts
        = (some p, (cachedQuote oracle cache symbol ts).2.1, 0) := by
  exact cached_quote_keyed_idem oracle cache symbol ts (get_cache_key symbol ts) p hfresh hsucc

/-- Witness for C3 on a fresh cache and an always-succeeding source. -/
theorem cached_quote_idempotent_witness :
    (cachedQuote oracleCacheDemo [] "ETH" 1700000000).1 = some (3/2)
      ∧ cachedQuote oracleCacheDemo ((cachedQuote oracleCacheDemo [] "ETH" 1700000000).2.1)
          "ETH" 1700000000
        = (some (3/2), (cachedQuote oracleCacheDemo [] "ETH" 1700000000).2.1, 0) :=
  cached_quote_idempotent oracleCacheDemo [] "ETH" 1700000000 (3/2) rfl rfl

theorem recvFold_nil (our : String) : ∀ (l : List TokTransfer),
    (∀ t ∈ l, ¬ lowerStr t.toAddr = our) → ∀ m : List (String × ℤ),
    l.foldl (fun m t =>
      if lowerStr t.toAddr = our then aggAdd m (lowerStr t.contractAddress) t.value else m) m = m
  | [], _, m => rfl
  | t :: rest, h, m => by
    have ht : ¬ lowerStr t.toAddr = our := h t (by simp)
    simp only [List.foldl_cons, if_neg ht]
    exact recvFold_nil our rest (fun x hx => h x (by simp [hx])) m

theorem buildSentReceived_snd_nil (our : String) (l : List TokTransfer)
    (h : ∀ t ∈ l, ¬ lowerStr t.toAddr = our) :
    (buildSentReceived our l).2 = [] := by
  suffices hgen : ∀ (l' : List TokTransfer), (∀ t ∈ l', ¬ lowerStr t.toAddr = our) →
      ∀ acc : List (String × ℤ) × List (String × ℤ),
      (l'.foldl (fun acc t =>
        if lowerStr t.fromAddr = our then (aggAdd acc.1 (lowerStr t.contractAddress) t.value, acc.2)
        else if lowerStr t.toAddr = our then (acc.1, aggAdd acc.2 (lowerStr t.contractAddress) t.value)
        else acc) acc).2 = acc.2 by
    exact hgen l h ([], [])
  intro l'
  induction l' with
  | nil => intro _ acc; rfl
  | cons t rest ih =>
    intro hl acc
    have ht : ¬ lowerStr t.toAddr = our := hl t (by simp)
    have hrest : ∀ x ∈ rest, ¬ lowerStr x.toAddr = our := fun x hx => hl x (by simp [hx])
    simp only [List.foldl_cons]
    by_cases hf : lowerStr t.fromAddr = our
    · rw [if_pos hf]
      exact ih hrest _
    · rw [if_neg hf, if_neg ht]
      exact ih hrest acc

theorem parse_eth_swap_none (d : EthChainData) (tx : EthTx) (l : List TokTransfer)
    (hrecv : ∀ t ∈ l, ¬ lowerStr t.toAddr = lowerStr d.address)
    (hnat : ethReceivedFor d (lowerStr tx.hash) (lowerStr d.address) = 0) :
    parse_eth_swap d tx l = none := by
  simp only [parse_eth_swap]
  split
  · rfl
  · rw [recvFold_nil (lowerStr d.address) l hrecv, hnat]
    simp

theorem parse_uniswap_v2_none (d : EthChainData) (tx : EthTx) (l : List TokTransfer)
    (hrecv : ∀ t ∈ l, ¬ lowerStr t.toAddr = lowerStr d.address) :
    parse_uniswap_v2_swap d tx l = none := by
  simp only [parse_uniswap_v2_swap]
  split
  · rfl
  · split
    · rfl
    · have hf : ∀ t ∈ l.filter (fun t =>
          decide (lowerStr t.fromAddr = lowerStr d.address)
            || decide (lowerStr t.toAddr = lowerStr d.address)),
          ¬ lowerStr t.toAddr = lowerStr d.address :=
        fun t ht => hrecv t (List.mem_of_mem_filter ht)
      rw [buildSentReceived_snd_nil (lowerStr d.address) _ hf]
      cases maxBySnd (buildSentReceived (lowerStr d.address) (l.filter (fun t =>
          decide (lowerStr t.fromAddr = lowerStr d.address)
            || decide (lowerStr t.toAddr = lowerStr d.address)))).1 <;>
        simp [maxBySnd]

theorem parse_uniswap_v3_none (d : EthChainData) (tx : EthTx) (l : List TokTransfer)
    (hrecv : ∀ t ∈ l, ¬ lowerStr t.toAddr = lowerStr d.address) :
    parse_uniswap_v3_swap d tx l = none := by
  simp only [parse_uniswap_v3_swap, parse_uniswap_v2_none d tx l hrecv]

theorem parseGenericTail_none (d : EthChainData) (tx : EthTx) (l : List TokTransfer)
    (hrecv : ∀ t ∈ l, ¬ lowerStr t.toAddr = lowerStr d.address)
    (hnat : ethReceivedFor d (lowerStr tx.hash) (lowerStr d.address) = 0) :
    parseGenericTail d tx l = none := by
  simp only [parseGenericTail]
  split
  · rfl
  · split
    · exact parse_eth_swap_none d tx l hrecv hnat
    · rw [parse_uniswap_v2_none d tx l hrecv, parse_uniswap_v3_none d tx l hrecv]
      exact parse_eth_swap_none d tx l hrecv hnat

/-- C8 (amended).  When the tracked address sent tokens in a transaction,
received none, and there is no native-asset movement toward it (no
internal transfer received), the classifier returns `None` — PROVIDED the
transaction's input data does not begin with a known swap function
signature.  (With such a signature the parser instead synthesizes a
native-asset leg; see the counterexample.) -/
theorem sent_only_no_native_classifier_none (d : EthChainData) (tx : EthTx)
    (hsent : ∃ t ∈ erc20ByHash d (lowerStr tx.hash), lowerStr t.fromAddr = lowerStr d.address)
    (hrecv : ∀ t ∈ erc20ByHash d (lowerStr tx.hash), ¬ lowerStr t.toAddr = lowerStr d.address)
    (hnat : ethReceivedFor d (lowerStr tx.hash) (lowerStr d.address) = 0)
    (hsig : hasSwapFunc tx.input = false) :
    parse_generic_swap d tx = none := by
  clear hsent
  have hrecvF : ∀ t ∈ (erc20ByHash d (lowerStr tx.hash)).filter (fun t =>
      decide (lowerStr t.fromAddr = lowerStr d.address)
        || decide (lowerStr t.toAddr = lowerStr d.address)),
      ¬ lowerStr t.toAddr = lowerStr d.address :=
    fun t ht => hrecv t (List.mem_of_mem_filter ht)
  have hmem : (if 10 ≤ tx.input.length then lowerStr ⟨tx.input.data.take 10⟩ else "")
      ∉ SWAP_FUNCTION_SIGNATURES := by
    by_cases hl : 10 ≤ tx.input.length
    · rw [if_pos hl]
      have h2 := hsig
      simp [hasSwapFunc, hl] at h2
      exact h2
    · rw [if_neg hl]
      decide
  simp only [parse_generic_swap]
  split
  · rfl
  · split
    · rfl
    · split
      · rw [buildSentReceived_snd_nil _ _ hrecvF]
        cases hms : maxBySnd (buildSentReceived (lowerStr d.address)
            ((erc20ByHash d (lowerStr tx.hash)).filter (fun t =>
              decide (lowerStr t.fromAddr = lowerStr d.address)
                || decide (lowerStr t.toAddr = lowerStr d.address)))).1 with
        | none => simp [maxBySnd, hmem, parseGenericTail_none d tx _ hrecv hnat]
        | some p => simp [maxBySnd, hmem, parseGenericTail_none d tx _ hrecv hnat]
      · exact parseGenericTail_none d tx _ hrecv hnat

/-- Witness for the amended C8: the sent-only transaction without call
data produces no candidate swap. -/
theorem sent_only_no_native_classifier_none_witness :
    parse_generic_swap c8data c8txPlain = none :=
  sent_only_no_native_classifier_none c8data c8txPlain
    (by decide) (by decide) (by decide) (by decide)

/-- C8 (counterexample).  The same sent-only transaction — received
nothing, zero native value, no internal transfers — but whose input data
begins with the `swapExactTokensForTokens` signature IS classified as a
swap: the parser synthesizes a native-asset out-leg with placeholder
amount 1, so the classifier does not return `None` as the claim states. -/
theorem sent_only_swapsig_synthesizes_swap :
    parse_generic_swap c8data c8tx
      = some ⟨"0xh1", 1, 1000, "Unknown DEX", "0xtoka", ETH_ADDRESS, 5, 1⟩ := by
  decide
